import Mathlib

/-!
Verification of the slot-filling core of the Jarvis assistant
(`src/agents/intent_classifier.py`, `src/agents/state_manager.py`,
`src/agents/tool_validator.py`).

The Python code drives all text analysis through `re.search` on a fixed set
of patterns.  We embed the fragment of Python regular expressions those
patterns use: literals, ordered alternation, character classes, the
quantifiers `*` `+` `+?` `{lo,hi}` `?` (each quantified subject in the source
is a single-character class, which the embedding exploits for termination),
capture groups, the word-boundary assertion `\b` and the end anchor `$`.
The matcher is a backtracking matcher in continuation-passing style with the
same preference order as Python's engine: alternatives left to right, greedy
quantifiers longest first, lazy quantifiers shortest first, and `re.search`
tries start positions left to right.  Input strings are ASCII, so the ASCII
readings of `\w`, `\d`, `\s` below coincide with the source behaviour.
-/

/-- Python `\w` on ASCII input: letters, digits and underscore. -/
def isWordChar (c : Char) : Bool := c.isAlphanum || c = '_'

/-- Python `\d` on ASCII input. -/
def isDigitChar (c : Char) : Bool := c.isDigit

/-- Python `\s` on ASCII input: space, tab, newline, carriage return,
form feed and vertical tab. -/
def isSpaceChar (c : Char) : Bool :=
  c = ' ' || c = Char.ofNat 9 || c = Char.ofNat 10 || c = Char.ofNat 11 ||
  c = Char.ofNat 12 || c = Char.ofNat 13

/-- Python `.` (without `re.DOTALL`): any character except newline. -/
def pyDot (c : Char) : Bool := c != Char.ofNat 10

/-- Regular-expression abstract syntax for the fragment used by the source.
Quantifiers range over single-character classes, as they do in every pattern
of `intent_classifier.py`. -/
inductive Re where
  | eps : Re
  | lit : List Char → Re
  | cls : (Char → Bool) → Re
  | alt : Re → Re → Re
  | seq : Re → Re → Re
  | starG : (Char → Bool) → Re
  | plusG : (Char → Bool) → Re
  | plusL : (Char → Bool) → Re
  | repG : (Char → Bool) → Nat → Nat → Re
  | opt : Re → Re
  | grp : Nat → Re → Re
  | wb : Re
  | eos : Re

/-- Capture environment: group index to captured text. -/
abbrev Caps := List (Nat × List Char)

/-- Record a capture, overwriting any earlier capture of the same group. -/
def setCap (caps : Caps) (idx : Nat) (v : List Char) : Caps :=
  match caps with
  | [] => [(idx, v)]
  | (j, w) :: rest => if j = idx then (idx, v) :: rest else (j, w) :: setCap rest idx v

/-- Look up a capture. -/
def getCap (caps : Caps) (idx : Nat) : Option (List Char) :=
  match caps with
  | [] => none
  | (j, w) :: rest => if j = idx then some w else getCap rest idx

/-- Does the literal `s` occur in `orig` starting at position `i`? -/
def litAt (orig : List Char) (i : Nat) : List Char → Bool
  | [] => true
  | c :: cs =>
    match orig[i]? with
    | some d => c = d && litAt orig (i + 1) cs
    | none => false

/-- Length of the maximal run of class-`p` characters at the head of a list. -/
def runLenFrom (p : Char → Bool) : List Char → Nat
  | [] => 0
  | c :: cs => if p c then runLenFrom p cs + 1 else 0

/-- Length of the maximal run of class-`p` characters of `orig` from `i`. -/
def runLen (p : Char → Bool) (orig : List Char) (i : Nat) : Nat :=
  runLenFrom p (orig.drop i)

/-- Candidate end positions for a greedy quantifier starting at `i` over a
run of length `n`, requiring at least `lo` repetitions: longest first. -/
def greedyCands (i n lo : Nat) : List Nat :=
  (List.range (n + 1 - lo)).map (fun d => i + n - d)

/-- Candidate end positions for a lazy quantifier: shortest first. -/
def lazyCands (i n lo : Nat) : List Nat :=
  (List.range (n + 1 - lo)).map (fun d => i + lo + d)

/-- Try candidate resume positions in order; first success wins. -/
def tryPositions (k : Nat → Caps → Option (Nat × Caps)) (caps : Caps) :
    List Nat → Option (Nat × Caps)
  | [] => none
  | j :: rest =>
    match k j caps with
    | some res => some res
    | none => tryPositions k caps rest

/-- Is position `i` of `orig` on a word character? -/
def isWordAt (orig : List Char) (i : Nat) : Bool :=
  match orig[i]? with
  | some c => isWordChar c
  | none => false

/-- Python `\b`: word/non-word transition (string edges count as non-word). -/
def atBoundary (orig : List Char) (i : Nat) : Bool :=
  (decide (0 < i) && isWordAt orig (i - 1)) != isWordAt orig i

/-- Python `$`: end of string, or just before a final newline. -/
def atEos (orig : List Char) (i : Nat) : Bool :=
  i = orig.length || (i + 1 = orig.length && orig[i]? = some (Char.ofNat 10))

/-- Substring `orig[i:j]`. -/
def sliceStr (orig : List Char) (i j : Nat) : List Char :=
  (orig.take j).drop i

/-- Backtracking matcher in continuation-passing style.  `reMatch orig r i
caps k` attempts to match `r` at position `i` of `orig`, calling `k` for each
candidate way of matching, in the preference order of Python's engine, and
returns the first overall success. -/
def reMatch (orig : List Char) (r : Re) (i : Nat) (caps : Caps)
    (k : Nat → Caps → Option (Nat × Caps)) : Option (Nat × Caps) :=
  match r with
  | .eps => k i caps
  | .lit s => if litAt orig i s then k (i + s.length) caps else none
  | .cls p =>
    match orig[i]? with
    | some c => if p c then k (i + 1) caps else none
    | none => none
  | .alt r1 r2 =>
    match reMatch orig r1 i caps k with
    | some res => some res
    | none => reMatch orig r2 i caps k
  | .seq r1 r2 => reMatch orig r1 i caps (fun j caps2 => reMatch orig r2 j caps2 k)
  | .starG p => tryPositions k caps (greedyCands i (runLen p orig i) 0)
  | .plusG p => tryPositions k caps (greedyCands i (runLen p orig i) 1)
  | .plusL p => tryPositions k caps (lazyCands i (runLen p orig i) 1)
  | .repG p lo hi => tryPositions k caps (greedyCands i (min (runLen p orig i) hi) lo)
  | .opt r1 =>
    match reMatch orig r1 i caps k with
    | some res => some res
    | none => k i caps
  | .grp idx r1 => reMatch orig r1 i caps (fun j caps2 => k j (setCap caps2 idx (sliceStr orig i j)))
  | .wb => if atBoundary orig i then k i caps else none
  | .eos => if atEos orig i then k i caps else none

/-- Result of a successful `re.search`: span of the whole match and the
captures. -/
structure MatchRes where
  mstart : Nat
  mend : Nat
  caps : Caps
deriving DecidableEq, Repr

/-- Python `re.search`: leftmost match, trying start positions left to
right. -/
def reSearch (r : Re) (orig : List Char) : Option MatchRes :=
  (List.range (orig.length + 1)).findSome? (fun i =>
    match reMatch orig r i [] (fun j caps => some (j, caps)) with
    | some jc => some ⟨i, jc.1, jc.2⟩
    | none => none)

/-- Python `match.group(0)`: the text of the whole match. -/
def MatchRes.group0 (orig : List Char) (m : MatchRes) : List Char :=
  sliceStr orig m.mstart m.mend

/-- Python `match.group(idx)` for a capture group. -/
def MatchRes.group (m : MatchRes) (idx : Nat) : Option (List Char) :=
  getCap m.caps idx

/-!
Pattern translations.  Each definition below transliterates one regular
expression from `src/agents/intent_classifier.py`; the original pattern is
quoted in the comment above it.  `aposC` is the ASCII apostrophe character
appearing in patterns such as `what\'s`.
-/

/-- Apostrophe character (U+0027). -/
def aposC : Char := Char.ofNat 39

/-- Apostrophe as a one-character string. -/
def aposS : String := String.mk [aposC]

/-- Literal regex from a string. -/
def litS (s : String) : Re := Re.lit s.data

/-- Ordered alternation of a list of regexes (left to right, first wins). -/
def alts : List Re → Re
  | [] => Re.eps
  | [r] => r
  | r :: rest => Re.alt r (alts rest)

/-- Ordered alternation of literal words. -/
def wordAlts (ws : List String) : Re := alts (ws.map litS)

/-- Sequential composition of a list of regexes. -/
def seqs : List Re → Re
  | [] => Re.eps
  | [r] => r
  | r :: rest => Re.seq r (seqs rest)

/-- Character class `[\w\.-]` of the e-mail pattern. -/
def emailChar (c : Char) : Bool := isWordChar c || c = '.' || c = '-'

/-- Character class `[^at]`. -/
def notAT (c : Char) : Bool := !(c = 'a' || c = 't')

/- Intent.CALENDAR_CREATE classification patterns. -/

/-- Pattern `\b(schedule|create|add|plan|set up)\b.*\b(meeting|event|appointment|reminder)\b`. -/
def ccPat1 : Re := seqs [.wb, .grp 1 (wordAlts ["schedule", "create", "add", "plan", "set up"]),
  .wb, .starG pyDot, .wb, .grp 2 (wordAlts ["meeting", "event", "appointment", "reminder"]), .wb]

/-- Pattern `\b(tomorrow|today|next week|next month)\b.*\b(at|@)\b.*\d+`. -/
def ccPat2 : Re := seqs [.wb, .grp 1 (wordAlts ["tomorrow", "today", "next week", "next month"]),
  .wb, .starG pyDot, .wb, .grp 2 (wordAlts ["at", "@"]), .wb, .starG pyDot, .plusG isDigitChar]

/-- Pattern `\bremind me\b.*\b(about|to)\b`. -/
def ccPat3 : Re := seqs [.wb, litS "remind me", .wb, .starG pyDot, .wb,
  .grp 1 (wordAlts ["about", "to"]), .wb]

/-- Pattern `\b(gym|workout|dinner|lunch|meeting)\b.*\b(at|@)\b.*\d+`. -/
def ccPat4 : Re := seqs [.wb, .grp 1 (wordAlts ["gym", "workout", "dinner", "lunch", "meeting"]),
  .wb, .starG pyDot, .wb, .grp 2 (wordAlts ["at", "@"]), .wb, .starG pyDot, .plusG isDigitChar]

/-- Pattern `\bgoing to\b.*\b(gym|meeting|appointment)`. -/
def ccPat5 : Re := seqs [.wb, litS "going to", .wb, .starG pyDot, .wb,
  .grp 1 (wordAlts ["gym", "meeting", "appointment"])]

/-- Pattern `\b(calendar|schedule)\b.*\b(for|at)\b`. -/
def ccPat6 : Re := seqs [.wb, .grp 1 (wordAlts ["calendar", "schedule"]), .wb, .starG pyDot,
  .wb, .grp 2 (wordAlts ["for", "at"]), .wb]

/- Intent.CALENDAR_CHECK classification patterns. -/

/-- Pattern `\b(check|show|what\'s|whats)\b.*\b(calendar|schedule|events|meetings)\b`. -/
def chPat1 : Re := seqs [.wb, .grp 1 (wordAlts ["check", "show", "what" ++ aposS ++ "s", "whats"]),
  .wb, .starG pyDot, .wb, .grp 2 (wordAlts ["calendar", "schedule", "events", "meetings"]), .wb]

/-- Pattern `\b(what do i have|what\'s on my)\b.*\b(calendar|schedule)\b`. -/
def chPat2 : Re := seqs [.wb, .grp 1 (wordAlts ["what do i have", "what" ++ aposS ++ "s on my"]),
  .wb, .starG pyDot, .wb, .grp 2 (wordAlts ["calendar", "schedule"]), .wb]

/-- Pattern `\b(upcoming|next)\b.*\b(events|meetings|appointments)\b`. -/
def chPat3 : Re := seqs [.wb, .grp 1 (wordAlts ["upcoming", "next"]), .wb, .starG pyDot, .wb,
  .grp 2 (wordAlts ["events", "meetings", "appointments"]), .wb]

/-- Pattern `\b(free|available|busy)\b.*\b(today|tomorrow|next week)\b`. -/
def chPat4 : Re := seqs [.wb, .grp 1 (wordAlts ["free", "available", "busy"]), .wb, .starG pyDot,
  .wb, .grp 2 (wordAlts ["today", "tomorrow", "next week"]), .wb]

/- Intent.CALENDAR_SEARCH classification patterns. -/

/-- Pattern `\b(find|search|look for)\b.*\b(event|meeting|appointment)\b`. -/
def csPat1 : Re := seqs [.wb, .grp 1 (wordAlts ["find", "search", "look for"]), .wb, .starG pyDot,
  .wb, .grp 2 (wordAlts ["event", "meeting", "appointment"]), .wb]

/-- Pattern `\b(when was|when is)\b.*\b(meeting|event|appointment)\b`. -/
def csPat2 : Re := seqs [.wb, .grp 1 (wordAlts ["when was", "when is"]), .wb, .starG pyDot, .wb,
  .grp 2 (wordAlts ["meeting", "event", "appointment"]), .wb]

/- Intent.EMAIL_SEND classification patterns. -/

/-- Pattern `\b(send|write|compose)\b.*\b(email|message|mail)\b`. -/
def esPat1 : Re := seqs [.wb, .grp 1 (wordAlts ["send", "write", "compose"]), .wb, .starG pyDot,
  .wb, .grp 2 (wordAlts ["email", "message", "mail"]), .wb]

/-- Pattern `\b(email|mail)\b.*\b(to|about)\b`. -/
def esPat2 : Re := seqs [.wb, .grp 1 (wordAlts ["email", "mail"]), .wb, .starG pyDot, .wb,
  .grp 2 (wordAlts ["to", "about"]), .wb]

/-- Pattern `\btell\b.*\b(via email|by email)\b`. -/
def esPat3 : Re := seqs [.wb, litS "tell", .wb, .starG pyDot, .wb,
  .grp 1 (wordAlts ["via email", "by email"]), .wb]

/- Intent.EMAIL_READ classification patterns. -/

/-- Pattern `\b(check|read|show)\b.*\b(email|emails|mail|inbox)\b`. -/
def erPat1 : Re := seqs [.wb, .grp 1 (wordAlts ["check", "read", "show"]), .wb, .starG pyDot,
  .wb, .grp 2 (wordAlts ["email", "emails", "mail", "inbox"]), .wb]

/-- Pattern `\b(any new|latest)\b.*\b(email|mail|messages)\b`. -/
def erPat2 : Re := seqs [.wb, .grp 1 (wordAlts ["any new", "latest"]), .wb, .starG pyDot, .wb,
  .grp 2 (wordAlts ["email", "mail", "messages"]), .wb]

/- Intent.WEATHER classification patterns. -/

/-- Pattern `\b(weather|temperature|forecast)\b`. -/
def wPat1 : Re := seqs [.wb, .grp 1 (wordAlts ["weather", "temperature", "forecast"]), .wb]

/-- Pattern `\b(how\'s|what\'s|whats)\b.*\b(weather|temperature)\b`. -/
def wPat2 : Re := seqs [.wb, .grp 1 (wordAlts ["how" ++ aposS ++ "s", "what" ++ aposS ++ "s", "whats"]),
  .wb, .starG pyDot, .wb, .grp 2 (wordAlts ["weather", "temperature"]), .wb]

/-- Pattern `\b(rain|sunny|cloudy|hot|cold)\b.*\b(today|tomorrow|outside)\b`. -/
def wPat3 : Re := seqs [.wb, .grp 1 (wordAlts ["rain", "sunny", "cloudy", "hot", "cold"]), .wb,
  .starG pyDot, .wb, .grp 2 (wordAlts ["today", "tomorrow", "outside"]), .wb]

/- Intent.APP_LAUNCH classification patterns. -/

/-- Pattern `\b(open|launch|start|run)\b.*\b(app|application|program)\b`. -/
def alPat1 : Re := seqs [.wb, .grp 1 (wordAlts ["open", "launch", "start", "run"]), .wb,
  .starG pyDot, .wb, .grp 2 (wordAlts ["app", "application", "program"]), .wb]

/-- Pattern `\b(open|launch|start)\b\s+\w+\.(app|exe|com)\b`. -/
def alPat2 : Re := seqs [.wb, .grp 1 (wordAlts ["open", "launch", "start"]), .wb,
  .plusG isSpaceChar, .plusG isWordChar, litS ".", .grp 2 (wordAlts ["app", "exe", "com"]), .wb]

/-- Pattern `\bopen\b\s+(chrome|firefox|safari|spotify|slack|discord|teams)\b`. -/
def alPat3 : Re := seqs [.wb, litS "open", .wb, .plusG isSpaceChar,
  .grp 1 (wordAlts ["chrome", "firefox", "safari", "spotify", "slack", "discord", "teams"]), .wb]

/- Intent.TERMINAL classification patterns. -/

/-- Pattern `\b(run|execute|terminal|command)\b`. -/
def tPat1 : Re := seqs [.wb, .grp 1 (wordAlts ["run", "execute", "terminal", "command"]), .wb]

/-- Pattern `\b(bash|shell|cmd)\b`. -/
def tPat2 : Re := seqs [.wb, .grp 1 (wordAlts ["bash", "shell", "cmd"]), .wb]

/-- Pattern `\bgit\b.*\b(status|commit|push|pull)\b`. -/
def tPat3 : Re := seqs [.wb, litS "git", .wb, .starG pyDot, .wb,
  .grp 1 (wordAlts ["status", "commit", "push", "pull"]), .wb]

/-- Pattern `\b(ls|cd|mkdir|rm|cp|mv)\b`. -/
def tPat4 : Re := seqs [.wb, .grp 1 (wordAlts ["ls", "cd", "mkdir", "rm", "cp", "mv"]), .wb]

/-- Pattern `\b(npm|pip|docker)\b`. -/
def tPat5 : Re := seqs [.wb, .grp 1 (wordAlts ["npm", "pip", "docker"]), .wb]

/-- Pattern `\brun\s+\w+`. -/
def tPat6 : Re := seqs [.wb, litS "run", .plusG isSpaceChar, .plusG isWordChar]

/-- Pattern `\bls\b.*\bon\b`. -/
def tPat7 : Re := seqs [.wb, litS "ls", .wb, .starG pyDot, .wb, litS "on", .wb]

/-- Pattern `\bellis\b`. -/
def tPat8 : Re := seqs [.wb, litS "ellis", .wb]

/- Intent.WEB_SEARCH classification patterns. -/

/-- Pattern `\b(search|google|look up|find)\b.*\b(for|about|on)\b`. -/
def wsPat1 : Re := seqs [.wb, .grp 1 (wordAlts ["search", "google", "look up", "find"]), .wb,
  .starG pyDot, .wb, .grp 2 (wordAlts ["for", "about", "on"]), .wb]

/-- Pattern `\b(what is|who is|how to)\b`. -/
def wsPat2 : Re := seqs [.wb, .grp 1 (wordAlts ["what is", "who is", "how to"]), .wb]

/-- Pattern `\b(browse|web|internet)\b.*\b(search|for)\b`. -/
def wsPat3 : Re := seqs [.wb, .grp 1 (wordAlts ["browse", "web", "internet"]), .wb, .starG pyDot,
  .wb, .grp 2 (wordAlts ["search", "for"]), .wb]

/- Intent.MEMORY_LOOKUP classification patterns. -/

/-- Pattern `\b(remember|recall|what did)\b.*\b(say|tell|mention)\b`. -/
def mlPat1 : Re := seqs [.wb, .grp 1 (wordAlts ["remember", "recall", "what did"]), .wb,
  .starG pyDot, .wb, .grp 2 (wordAlts ["say", "tell", "mention"]), .wb]

/-- Pattern `\b(previous|earlier|before)\b.*\b(conversation|discussion)\b`. -/
def mlPat2 : Re := seqs [.wb, .grp 1 (wordAlts ["previous", "earlier", "before"]), .wb,
  .starG pyDot, .wb, .grp 2 (wordAlts ["conversation", "discussion"]), .wb]

/-- Pattern `\b(context|history|past)\b`. -/
def mlPat3 : Re := seqs [.wb, .grp 1 (wordAlts ["context", "history", "past"]), .wb]

/- Extraction patterns of `IntentClassifier.extract_fields`. -/

/-- Activity pattern `\b(gym|workout|meeting|lunch|dinner|appointment|call)\b`. -/
def actPat1 : Re := seqs [.wb,
  .grp 1 (wordAlts ["gym", "workout", "meeting", "lunch", "dinner", "appointment", "call"]), .wb]

/-- Activity pattern `\bgoing to\s+(\w+)`. -/
def actPat2 : Re := seqs [.wb, litS "going to", .plusG isSpaceChar, .grp 1 (.plusG isWordChar)]

/-- Activity pattern `\b(schedule|create|add)\s+([^at]+?)(?:\s+at|\s+for|\s+on|$)`. -/
def actPat3 : Re := seqs [.wb, .grp 1 (wordAlts ["schedule", "create", "add"]), .plusG isSpaceChar,
  .grp 2 (.plusL notAT),
  alts [seqs [.plusG isSpaceChar, litS "at"], seqs [.plusG isSpaceChar, litS "for"],
        seqs [.plusG isSpaceChar, litS "on"], .eos]]

/-- Time pattern `\b(\d{1,2}):(\d{2})\s*(am|pm)?\b`. -/
def timePat1 : Re := seqs [.wb, .grp 1 (.repG isDigitChar 1 2), litS ":",
  .grp 2 (.repG isDigitChar 2 2), .starG isSpaceChar, .opt (.grp 3 (wordAlts ["am", "pm"])), .wb]

/-- Time pattern `\b(\d{1,2})\s*(am|pm)\b`. -/
def timePat2 : Re := seqs [.wb, .grp 1 (.repG isDigitChar 1 2), .starG isSpaceChar,
  .grp 2 (wordAlts ["am", "pm"]), .wb]

/-- Recipient pattern `[\w\.-]+@[\w\.-]+\.\w+`. -/
def emailPat : Re := seqs [.plusG emailChar, litS "@", .plusG emailChar, litS ".", .plusG isWordChar]

/-- Query pattern `search for (.+?)(?:\.|$)`. -/
def searchPat1 : Re := seqs [litS "search for ", .grp 1 (.plusL pyDot), alts [litS ".", .eos]]

/-- Query pattern `look up (.+?)(?:\.|$)`. -/
def searchPat2 : Re := seqs [litS "look up ", .grp 1 (.plusL pyDot), alts [litS ".", .eos]]

/-- Query pattern `find (.+?)(?:\.|$)`. -/
def searchPat3 : Re := seqs [litS "find ", .grp 1 (.plusL pyDot), alts [litS ".", .eos]]

/-- Query pattern `google (.+?)(?:\.|$)`. -/
def searchPat4 : Re := seqs [litS "google ", .grp 1 (.plusL pyDot), alts [litS ".", .eos]]

/-!
Intent enumeration and classifier (`src/agents/intent_classifier.py`).
-/

/-- Intent enumeration from `intent_classifier.py`. -/
inductive Intent where
  | CALENDAR_CREATE
  | CALENDAR_CHECK
  | CALENDAR_SEARCH
  | EMAIL_SEND
  | EMAIL_READ
  | WEATHER
  | APP_LAUNCH
  | TERMINAL
  | WEB_SEARCH
  | MEMORY_LOOKUP
  | GENERAL
deriving DecidableEq, Repr

/-- String value of each enum member. -/
def Intent.value : Intent → String
  | .CALENDAR_CREATE => "calendar_create"
  | .CALENDAR_CHECK => "calendar_check"
  | .CALENDAR_SEARCH => "calendar_search"
  | .EMAIL_SEND => "email_send"
  | .EMAIL_READ => "email_read"
  | .WEATHER => "weather"
  | .APP_LAUNCH => "app_launch"
  | .TERMINAL => "terminal"
  | .WEB_SEARCH => "web_search"
  | .MEMORY_LOOKUP => "memory_lookup"
  | .GENERAL => "general"

/-- Python `Intent(s)`: enum lookup by value; `none` models the `ValueError`
raised on an unknown value. -/
def Intent.fromString (s : String) : Option Intent :=
  if s = "calendar_create" then some .CALENDAR_CREATE
  else if s = "calendar_check" then some .CALENDAR_CHECK
  else if s = "calendar_search" then some .CALENDAR_SEARCH
  else if s = "email_send" then some .EMAIL_SEND
  else if s = "email_read" then some .EMAIL_READ
  else if s = "weather" then some .WEATHER
  else if s = "app_launch" then some .APP_LAUNCH
  else if s = "terminal" then some .TERMINAL
  else if s = "web_search" then some .WEB_SEARCH
  else if s = "memory_lookup" then some .MEMORY_LOOKUP
  else if s = "general" then some .GENERAL
  else none

/-- Python `text.lower()` on ASCII input. -/
def lowerStr (s : List Char) : List Char := s.map Char.toLower

/-- The classifier's pattern table `self.patterns`, in the insertion order of
the dictionary literal in `IntentClassifier.__init__` (Python dictionaries
iterate in insertion order, which fixes the tie-break order). -/
def patternsCatalog : List (Intent × List Re) :=
  [(.CALENDAR_CREATE, [ccPat1, ccPat2, ccPat3, ccPat4, ccPat5, ccPat6]),
   (.CALENDAR_CHECK, [chPat1, chPat2, chPat3, chPat4]),
   (.CALENDAR_SEARCH, [csPat1, csPat2]),
   (.EMAIL_SEND, [esPat1, esPat2, esPat3]),
   (.EMAIL_READ, [erPat1, erPat2]),
   (.WEATHER, [wPat1, wPat2, wPat3]),
   (.APP_LAUNCH, [alPat1, alPat2, alPat3]),
   (.TERMINAL, [tPat1, tPat2, tPat3, tPat4, tPat5, tPat6, tPat7, tPat8]),
   (.WEB_SEARCH, [wsPat1, wsPat2, wsPat3]),
   (.MEMORY_LOOKUP, [mlPat1, mlPat2, mlPat3])]

/-- Number of patterns of an intent that match the (lower-cased) text. -/
def matchCount (ps : List Re) (tl : List Char) : Nat :=
  ps.countP (fun p => (reSearch p tl).isSome)

/-- One comparison step of Python `max(xs, key=...)`: the current best is
replaced only on a strictly greater key. -/
def pyMaxStep {α : Type} (key : α → Rat) (best y : α) : α :=
  if key best < key y then y else best

/-- Python `max(xs, key=...)` specialised to rational keys: the first element
with the maximal key. -/
def pyMaxByRat {α : Type} (key : α → Rat) : List α → Option α
  | [] => none
  | x :: xs => some (xs.foldl (pyMaxStep key) x)

/-- Python `max(xs, key=...)` specialised to natural-number keys (used for
`created_at` timestamps). -/
def pyMaxByNat {α : Type} (key : α → Nat) : List α → Option α
  | [] => none
  | x :: xs => some (xs.foldl (fun best y => if key best < key y then y else best) x)

/-- `IntentClassifier.classify_intent`.  Scores are `score / len(patterns)`;
the Python float division is modelled by the exact rational `mkRat score
len`: all denominators are at most 8, so double rounding can neither merge
distinct rationals (they differ by at least 1/64, far above the rounding
error) nor separate equal ones, hence every float comparison the source makes
agrees with the rational comparison. -/
def classify_intent (text : String) : Intent × Rat :=
  let text_lower := lowerStr text.data
  let scores : List (Intent × Rat) := patternsCatalog.filterMap (fun ip =>
    let score := matchCount ip.2 text_lower
    if 0 < score then some (ip.1, mkRat score ip.2.length) else none)
  match pyMaxByRat Prod.snd scores with
  | none => (Intent.GENERAL, 0)
  | some best => best

/-- `IntentClassifier.get_required_fields`: static lookup table; intents
absent from the table (only `GENERAL`) get the default `[]`. -/
def get_required_fields : Intent → List String
  | .CALENDAR_CREATE => ["title"]
  | .EMAIL_SEND => ["to", "subject"]
  | .WEATHER => []
  | .APP_LAUNCH => ["app_name"]
  | .TERMINAL => ["command"]
  | .WEB_SEARCH => ["query"]
  | .MEMORY_LOOKUP => ["query"]
  | .CALENDAR_CHECK => []
  | .CALENDAR_SEARCH => ["query"]
  | .EMAIL_READ => []
  | .GENERAL => []

/-!
Dictionaries.  Python `dict` preserves insertion order; assignment to an
existing key overwrites in place, assignment to a fresh key appends.  We
model them as association lists with exactly that discipline.
-/

/-- Python `d[k] = v`. -/
def dictSet {β : Type} (d : List (String × β)) (k : String) (v : β) : List (String × β) :=
  match d with
  | [] => [(k, v)]
  | (k0, v0) :: rest => if k0 = k then (k, v) :: rest else (k0, v0) :: dictSet rest k v

/-- Python `d.get(k)` / `k in d`. -/
def dictLookup {β : Type} (d : List (String × β)) (k : String) : Option β :=
  match d with
  | [] => none
  | (k0, v0) :: rest => if k0 = k then some v0 else dictLookup rest k

/-- Python `d.update(kvs)` (and the merge `{**d, **kvs}`): later values win. -/
def dataUpdate {β : Type} (d kvs : List (String × β)) : List (String × β) :=
  kvs.foldl (fun acc kv => dictSet acc kv.1 kv.2) d

/-- Python `'needle' in hay` substring test. -/
def hasSubstr (hay needle : List Char) : Bool :=
  (List.range (hay.length + 1)).any (fun i => litAt hay i needle)

/-- Python `str.strip()`: remove leading and trailing whitespace. -/
def strip (s : List Char) : List Char :=
  ((s.dropWhile isSpaceChar).reverse.dropWhile isSpaceChar).reverse

/-- Python `str.zfill(w)`. -/
def zfill (s : List Char) (w : Nat) : List Char :=
  List.replicate (w - s.length) '0' ++ s

/-- Python `int(s)` on a nonempty ASCII digit string. -/
def strToNat (s : List Char) : Nat :=
  s.foldl (fun a c => a * 10 + (c.toNat - 48)) 0

/-- Decimal digits of `n`, with explicit fuel for termination. -/
def natToStrCore (fuel n : Nat) : List Char :=
  match fuel with
  | 0 => []
  | fuel + 1 =>
    if n < 10 then [Char.ofNat (48 + n)]
    else natToStrCore fuel (n / 10) ++ [Char.ofNat (48 + n % 10)]

/-- Python `str(n)` for a natural number. -/
def natToStr (n : Nat) : String := String.mk (natToStrCore (n + 1) n)

/-- Clock values the source obtains from `datetime.now().strftime("%Y-%m-%d")`
(for "today") and `(datetime.now() + timedelta(days=1)).strftime("%Y-%m-%d")`
(for "tomorrow").  Date extraction is the only place the classifier touches
the wall clock, so the two rendered dates are passed in explicitly. -/
structure Env where
  todayStr : String
  tomorrowStr : String
deriving DecidableEq, Repr

/-- `IntentClassifier.extract_fields`.  Each branch transliterates the
corresponding `elif` of the source; within a branch the rule loops are
unrolled into nested matches because the loop body `break`s at the first
matching pattern.  For patterns whose success guarantees a capture group is
bound, the unreachable unbound case is read as `[]` (`getD []`). -/
def extract_fields (env : Env) (text : String) (intent : Intent) : List (String × String) :=
  let text_lower := lowerStr text.data
  match intent with
  | .CALENDAR_CREATE =>
    let fields : List (String × String) := []
    let fields :=
      match reSearch actPat1 text_lower with
      | some m => dictSet fields "title" (String.mk (MatchRes.group0 text_lower m))
      | none =>
        match reSearch actPat2 text_lower with
        | some m => dictSet fields "title" (String.mk ((m.group 1).getD []))
        | none =>
          match reSearch actPat3 text_lower with
          | some m => dictSet fields "title" (String.mk (strip ((m.group 2).getD [])))
          | none => fields
    let fields :=
      match reSearch timePat1 text_lower with
      | some m =>
        let hour := (m.group 1).getD []
        let minute := (m.group 2).getD []
        let ampm := m.group 3
        let hour :=
          if ampm = some "pm".data ∧ strToNat hour < 12 then (natToStr (strToNat hour + 12)).data
          else if ampm = some "am".data ∧ hour = "12".data then "00".data
          else hour
        dictSet fields "time" (String.mk (zfill hour 2 ++ ":".data ++ minute))
      | none =>
        match reSearch timePat2 text_lower with
        | some m =>
          let hour := (m.group 1).getD []
          let ampm := (m.group 2).getD []
          let hour :=
            if ampm = "pm".data ∧ strToNat hour < 12 then (natToStr (strToNat hour + 12)).data
            else if ampm = "am".data ∧ hour = "12".data then "00".data
            else hour
          dictSet fields "time" (String.mk (zfill hour 2 ++ ":00".data))
        | none => fields
    let fields :=
      if hasSubstr text_lower "tomorrow".data then dictSet fields "date" env.tomorrowStr
      else if hasSubstr text_lower "today".data then dictSet fields "date" env.todayStr
      else fields
    fields
  | .EMAIL_SEND =>
    if hasSubstr text.data "@".data then
      match reSearch emailPat text.data with
      | some m => dictSet [] "to" (String.mk (MatchRes.group0 text.data m))
      | none => []
    else []
  | .TERMINAL => dictSet [] "command" text
  | .WEB_SEARCH =>
    match reSearch searchPat1 text_lower with
    | some m => dictSet [] "query" (String.mk (strip ((m.group 1).getD [])))
    | none =>
      match reSearch searchPat2 text_lower with
      | some m => dictSet [] "query" (String.mk (strip ((m.group 1).getD [])))
      | none =>
        match reSearch searchPat3 text_lower with
        | some m => dictSet [] "query" (String.mk (strip ((m.group 1).getD [])))
        | none =>
          match reSearch searchPat4 text_lower with
          | some m => dictSet [] "query" (String.mk (strip ((m.group 1).getD [])))
          | none => []
  | _ => []

/-!
Task store (`src/agents/state_manager.py`).  Timestamps (`datetime.now()`)
are modelled by a `now : Nat` argument supplied at each call that reads the
clock.  `data` values are strings, as produced by `extract_fields`.
-/

/-- `TaskState` dataclass. -/
structure TaskState where
  task_type : String
  status : String
  data : List (String × String)
  created_at : Nat
  updated_at : Nat
deriving DecidableEq, Repr

/-- `TaskState.update`: merge new data and refresh the timestamp. -/
def TaskState.update (t : TaskState) (kvs : List (String × String)) (now : Nat) : TaskState :=
  { t with data := dataUpdate t.data kvs, updated_at := now }

/-- `StateManager`: active-task dictionary and session context. -/
structure StateManager where
  active_tasks : List (String × TaskState)
  session_context : List (String × String)
deriving DecidableEq, Repr

/-- `StateManager.create_task`. -/
def StateManager.create_task (st : StateManager) (task_id task_type : String)
    (initial_data : List (String × String)) (now : Nat) : StateManager × TaskState :=
  let task : TaskState := ⟨task_type, "pending", initial_data, now, now⟩
  ({ st with active_tasks := dictSet st.active_tasks task_id task }, task)

/-- `StateManager.get_task`. -/
def StateManager.get_task (st : StateManager) (task_id : String) : Option TaskState :=
  dictLookup st.active_tasks task_id

/-- `StateManager.update_task`: returns `false` and leaves the store
untouched when the id is unknown. -/
def StateManager.update_task (st : StateManager) (task_id : String) (status : Option String)
    (data : List (String × String)) (now : Nat) : Bool × StateManager :=
  match dictLookup st.active_tasks task_id with
  | none => (false, st)
  | some t =>
    let t := match status with | some s => { t with status := s } | none => t
    let t := t.update data now
    (true, { st with active_tasks := dictSet st.active_tasks task_id t })

/-- `StateManager.complete_task`: returns `false` and leaves the store
untouched when the id is unknown. -/
def StateManager.complete_task (st : StateManager) (task_id : String)
    (result : Option String) (now : Nat) : Bool × StateManager :=
  match dictLookup st.active_tasks task_id with
  | none => (false, st)
  | some t =>
    let t := { t with status := "completed" }
    let t := match result with | some r => t.update [("result", r)] now | none => t
    (true, { st with active_tasks := dictSet st.active_tasks task_id t })

/-- `StateManager.get_active_tasks`: tasks with status pending or
in_progress, optionally filtered by type. -/
def StateManager.get_active_tasks (st : StateManager) (task_type : Option String) :
    List (String × TaskState) :=
  match task_type with
  | some ty => st.active_tasks.filter (fun p =>
      p.2.task_type = ty ∧ (p.2.status = "pending" ∨ p.2.status = "in_progress"))
  | none => st.active_tasks.filter (fun p =>
      p.2.status = "pending" ∨ p.2.status = "in_progress")

/-- `StateManager.set_context`. -/
def StateManager.set_context (st : StateManager) (k v : String) : StateManager :=
  { st with session_context := dictSet st.session_context k v }

/-- `StateManager.get_context`. -/
def StateManager.get_context (st : StateManager) (k : String) (dflt : Option String) :
    Option String :=
  match dictLookup st.session_context k with
  | some v => some v
  | none => dflt

/-- `StateManager.clear_completed_tasks`: drop tasks whose status is
completed or failed. -/
def StateManager.clear_completed_tasks (st : StateManager) : StateManager :=
  { st with active_tasks := st.active_tasks.filter (fun p =>
      ¬(p.2.status = "completed" ∨ p.2.status = "failed")) }

/-!
Slot-filling orchestrator (`src/agents/tool_validator.py`).
-/

/-- `ValidationResult`. -/
structure ValidationResult where
  is_valid : Bool
  missing_fields : List String
  extracted_fields : List (String × String)
  clarification : Option String
deriving DecidableEq, Repr

/-- `self.clarification_templates` of `ToolValidator.__init__`. -/
def clarification_template (intent : Intent) (f : String) : Option String :=
  match intent with
  | .CALENDAR_CREATE =>
    if f = "title" then some "What should I call this event?"
    else if f = "date" then some "What date is this for? (e.g., tomorrow, today, 2024-03-08)"
    else if f = "time" then some "What time should this be scheduled for? (e.g., 3:00 PM, 15:00)"
    else none
  | .EMAIL_SEND =>
    if f = "to" then some "Who should I send this email to?"
    else if f = "subject" then some "What should the subject line be?"
    else if f = "content" then some "What should the email say?"
    else none
  | .WEB_SEARCH =>
    if f = "query" then some "What would you like me to search for?" else none
  | .APP_LAUNCH =>
    if f = "app_name" then some "Which application would you like me to open?" else none
  | .TERMINAL =>
    if f = "command" then some "What command should I run?" else none
  | _ => none

/-- `ToolValidator._generate_clarification`. -/
def generate_clarification (intent : Intent) (missing : List String)
    (extracted : List (String × String)) : String :=
  match missing with
  | [f] =>
    let base :=
      match clarification_template intent f with
      | some t => t
      | none => "I need to know the " ++ f ++ "."
    if !extracted.isEmpty then
      let context := "I have: " ++
        String.intercalate ", " (extracted.map (fun kv => kv.1 ++ ": " ++ kv.2))
      base ++ " " ++ context
    else base
  | fs =>
    "I need a bit more information: " ++
      String.intercalate " And " (fs.map (fun f =>
        match clarification_template intent f with
        | some t => t
        | none => "What is the " ++ f ++ "?"))

/-- The missing-field test shared by `validate_and_extract` (lines 46-49) and
`complete_task_with_response` (line 150): a required field is missing when it
is absent from the mapping or its value is falsy (the empty string). -/
def missingOf (required : List String) (d : List (String × String)) : List String :=
  required.filter (fun f =>
    match dictLookup d f with
    | some v => v = ""
    | none => true)

/-- The backfill loop of `validate_and_extract` (lines 53-59): walk the
active tasks in order; for each, walk a snapshot of the still-missing fields,
copying any truthy stored value into the extracted fields and deleting the
field from the missing list. -/
def backfillFields (tasks : List (String × TaskState)) (extracted : List (String × String))
    (missing : List String) : List (String × String) × List String :=
  tasks.foldl (fun acc p =>
    acc.2.foldl (fun acc2 f =>
      match dictLookup p.2.data f with
      | some v => if v ≠ "" then (dictSet acc2.1 f v, acc2.2.erase f) else acc2
      | none => acc2) acc) (extracted, missing)

/-- Steps 1-3 of `ToolValidator.validate_and_extract`: extraction, the
missing-field computation, and the backfill from active tasks of the same
intent type. -/
def postBackfill (env : Env) (st : StateManager) (user_input : String) (intent : Intent) :
    List (String × String) × List String :=
  let extracted := extract_fields env user_input intent
  let missing := missingOf (get_required_fields intent) extracted
  let active := st.get_active_tasks (some intent.value)
  if !active.isEmpty && !missing.isEmpty then backfillFields active extracted missing
  else (extracted, missing)

/-- `ToolValidator.validate_and_extract`. -/
def validate_and_extract (env : Env) (st : StateManager) (user_input : String)
    (intent : Intent) (now : Nat) : ValidationResult × StateManager :=
  let em := postBackfill env st user_input intent
  let active := st.get_active_tasks (some intent.value)
  if !em.2.isEmpty then
    let clar := generate_clarification intent em.2 em.1
    let task_id := intent.value ++ "_" ++ natToStr st.active_tasks.length
    let st' :=
      match active with
      | [] => (st.create_task task_id intent.value em.1 now).1
      | p :: _ => (st.update_task p.1 none em.1 now).2
    (⟨false, em.2, em.1, some clar⟩, st')
  else
    (⟨true, [], em.1, none⟩, st)

/-- The task-selection step of `complete_task_with_response` (lines 125-135):
the active task with the greatest `created_at` (first such in iteration
order), and the first task id whose task compares equal to it.  (Python's
dataclass equality compares `data` dictionaries without regard to insertion
order; the embedding compares the association lists, which agrees whenever
equal task records were built by the same operation history.) -/
def selectRecent (st : StateManager) : Option (String × TaskState) :=
  let active := st.get_active_tasks none
  if active.isEmpty then none
  else
    match pyMaxByNat (fun t => t.created_at) (active.map Prod.snd) with
    | none => none
    | some recent =>
      match active.find? (fun p => p.2 = recent) with
      | none => none
      | some p => some (p.1, recent)

/-- `ToolValidator.complete_task_with_response`.  `.ok (none, st)` models the
source's `return None` paths (no active task, or a falsy `task_id` — note the
source's `if not task_id` also fires on the empty-string id); `.error` models
the `ValueError` that `Intent(...)` would raise on an unknown task type. -/
def complete_task_with_response (env : Env) (st : StateManager) (user_response : String)
    (now : Nat) : Except String (Option ValidationResult × StateManager) :=
  match selectRecent st with
  | none => .ok (none, st)
  | some (task_id, recent) =>
    if task_id = "" then .ok (none, st)
    else
      match Intent.fromString recent.task_type with
      | none => .error "invalid task type"
      | some intent =>
        let new_fields := extract_fields env user_response intent
        let combined := dataUpdate recent.data new_fields
        let st1 := (st.update_task task_id none new_fields now).2
        let missing := missingOf (get_required_fields intent) combined
        if !missing.isEmpty then
          .ok (some ⟨false, missing, combined,
                     some (generate_clarification intent missing combined)⟩, st1)
        else
          .ok (some ⟨true, [], combined, none⟩, (st1.complete_task task_id none now).2)

/-!
Harness definitions used to state the multi-turn properties.
-/

/-- Run a sequence of `complete_task_with_response` calls (each pair is the
user response and the clock reading of that turn), threading the store;
`none` when some call does not reach the normal processing path. -/
def runCTWR (env : Env) : List (String × Nat) → StateManager → Option StateManager
  | [], st => some st
  | (resp, now) :: rest, st =>
    match complete_task_with_response env st resp now with
    | .ok (some _, st') => runCTWR env rest st'
    | _ => none

/-- The calls of the sequence are all "against the same task" `tid`: each
turn's recency selection picks `tid` (with the selected record being the
store's entry for `tid`), the id is truthy, and the call completes its
normal processing path. -/
def selectsAll (env : Env) (tid : String) : List (String × Nat) → StateManager → Bool
  | [], _ => true
  | (resp, now) :: rest, st =>
    match selectRecent st with
    | some (tid', recent) =>
      if tid' = tid ∧ tid ≠ "" ∧ dictLookup st.active_tasks tid = some recent then
        match complete_task_with_response env st resp now with
        | .ok (some _, st') => selectsAll env tid rest st'
        | _ => false
      else false
    | none => false

/-- The value a data key holds after a sequence of turns: the initial value
`v`, overwritten by each turn whose extraction yields the key. -/
def lastExtracted (env : Env) (intent : Intent) (k v : String) (rs : List String) : String :=
  rs.foldl (fun acc r => ((dictLookup (extract_fields env r intent) k).getD acc)) v

/-- Concrete clock environment for the closed instances. -/
def env0 : Env := ⟨"2024-03-07", "2024-03-08"⟩

/-- The empty store (a fresh `StateManager()`). -/
def st0 : StateManager := ⟨[], []⟩

/-- Concrete store holding one pending calendar task, as created by a first
`validate_and_extract` turn. -/
def stCal : StateManager :=
  ⟨[("calendar_create_0", ⟨"calendar_create", "pending", [("title", "gym")], 0, 0⟩)], []⟩

/-- Concrete store holding one pending calendar task with no data yet, used
to exercise the follow-up-turn missing-field check. -/
def stCalEmpty : StateManager :=
  ⟨[("calendar_create_0", ⟨"calendar_create", "pending", [], 0, 0⟩)], []⟩

/-- The per-intent score entry built by `classify_intent`'s loop: `some`
when at least one pattern matched (a positive score), `none` otherwise. -/
def scoreEntry (tl : List Char) (ip : Intent × List Re) : Option (Intent × Rat) :=
  if 0 < matchCount ip.2 tl then some (ip.1, mkRat (matchCount ip.2 tl) ip.2.length) else none

/-!
Lemmas about the dictionary model.
-/

theorem dictLookup_dictSet_self {β : Type} (d : List (String × β)) (k : String) (v : β) :
    dictLookup (dictSet d k v) k = some v := by
  induction d with
  | nil => simp [dictSet, dictLookup]
  | cons a rest ih =>
    obtain ⟨k0, v0⟩ := a
    by_cases h : k0 = k
    · simp [dictSet, h, dictLookup]
    · simp [dictSet, h, dictLookup, ih]

theorem dictLookup_dictSet_ne {β : Type} (d : List (String × β)) (k' k : String) (v : β)
    (h : k' ≠ k) : dictLookup (dictSet d k' v) k = dictLookup d k := by
  induction d with
  | nil => simp [dictSet, dictLookup, h]
  | cons a rest ih =>
    obtain ⟨k0, v0⟩ := a
    by_cases h0 : k0 = k'
    · subst h0
      simp [dictSet, dictLookup, h]
    · simp [dictSet, h0, dictLookup, ih]

theorem mem_dictSet_self {β : Type} (d : List (String × β)) (k : String) (v : β) :
    (k, v) ∈ dictSet d k v := by
  induction d with
  | nil => simp [dictSet]
  | cons a rest ih =>
    obtain ⟨k0, v0⟩ := a
    by_cases h : k0 = k <;> simp [dictSet, h, ih]

theorem mem_keys_dictSet {β : Type} (d : List (String × β)) (k : String) (v : β) (x : String) :
    x ∈ (dictSet d k v).map Prod.fst ↔ x ∈ d.map Prod.fst ∨ x = k := by
  induction d with
  | nil => simp [dictSet]
  | cons a rest ih =>
    obtain ⟨k0, v0⟩ := a
    by_cases h : k0 = k
    · subst h
      simp [dictSet]
      tauto
    · simp [dictSet, h, ih]
      tauto

theorem nodup_keys_dictSet {β : Type} (d : List (String × β)) (k : String) (v : β)
    (h : (d.map Prod.fst).Nodup) : ((dictSet d k v).map Prod.fst).Nodup := by
  induction d with
  | nil => simp [dictSet]
  | cons a rest ih =>
    obtain ⟨k0, v0⟩ := a
    simp only [List.map_cons, List.nodup_cons] at h
    by_cases h0 : k0 = k
    · subst h0
      simpa [dictSet] using h
    · have hx : k0 ∉ (dictSet rest k v).map Prod.fst := by
        rw [mem_keys_dictSet]
        push_neg
        exact ⟨h.1, h0⟩
      rw [show dictSet ((k0, v0) :: rest) k v = (k0, v0) :: dictSet rest k v from by
        simp [dictSet, h0]]
      simp only [List.map_cons, List.nodup_cons]
      exact ⟨hx, ih h.2⟩

theorem dictLookup_eq_none_iff {β : Type} (d : List (String × β)) (k : String) :
    dictLookup d k = none ↔ k ∉ d.map Prod.fst := by
  induction d with
  | nil => simp [dictLookup]
  | cons a rest ih =>
    obtain ⟨k0, v0⟩ := a
    by_cases h : k0 = k
    · simp [dictLookup, h]
    · rw [show dictLookup ((k0, v0) :: rest) k = dictLookup rest k from by simp [dictLookup, h],
        ih]
      simp [List.mem_cons, Ne.symm h]

theorem dictLookup_dataUpdate_none {β : Type} (d kvs : List (String × β)) (k : String)
    (h : dictLookup kvs k = none) : dictLookup (dataUpdate d kvs) k = dictLookup d k := by
  induction kvs generalizing d with
  | nil => rfl
  | cons a rest ih =>
    obtain ⟨k0, v0⟩ := a
    have hk : k0 ≠ k := by
      intro e
      simp [dictLookup, e] at h
    have hrest : dictLookup rest k = none := by
      simpa [dictLookup, hk] using h
    show dictLookup (dataUpdate (dictSet d k0 v0) rest) k = dictLookup d k
    rw [ih (dictSet d k0 v0) hrest, dictLookup_dictSet_ne d k0 k v0 hk]

theorem dictLookup_dataUpdate_some {β : Type} (d kvs : List (String × β)) (k : String) (w : β)
    (hnd : (kvs.map Prod.fst).Nodup) (h : dictLookup kvs k = some w) :
    dictLookup (dataUpdate d kvs) k = some w := by
  induction kvs generalizing d with
  | nil => simp [dictLookup] at h
  | cons a rest ih =>
    obtain ⟨k0, v0⟩ := a
    simp only [List.map_cons, List.nodup_cons] at hnd
    by_cases hk : k0 = k
    · subst hk
      have hw : v0 = w := by simpa [dictLookup] using h
      subst hw
      have hrest : dictLookup rest k0 = none := (dictLookup_eq_none_iff rest k0).mpr hnd.1
      show dictLookup (dataUpdate (dictSet d k0 v0) rest) k0 = some v0
      rw [dictLookup_dataUpdate_none (dictSet d k0 v0) rest k0 hrest,
        dictLookup_dictSet_self]
    · have hrest : dictLookup rest k = some w := by simpa [dictLookup, hk] using h
      show dictLookup (dataUpdate (dictSet d k0 v0) rest) k = some w
      exact ih (dictSet d k0 v0) hnd.2 hrest

theorem extract_fields_keys_nodup (env : Env) (t : String) (intent : Intent) :
    ((extract_fields env t intent).map Prod.fst).Nodup := by
  cases intent <;> simp only [extract_fields] <;>
    (repeat' split) <;>
    (repeat
      first
      | exact List.nodup_nil
      | simp
      | apply nodup_keys_dictSet)

/-!
Lemmas about the Python `max(..., key=...)` model: the result is an element
of the list, its key bounds every key, and every element strictly before it
has a strictly smaller key (so it is the first maximum).
-/

theorem foldl_pyMaxStep_spec {α : Type} (key : α → Rat) :
    ∀ (xs : List α) (x : α),
      ∃ l1 l2, x :: xs = l1 ++ (xs.foldl (pyMaxStep key) x) :: l2 ∧
        (∀ y ∈ x :: xs, key y ≤ key (xs.foldl (pyMaxStep key) x)) ∧
        ∀ y ∈ l1, key y < key (xs.foldl (pyMaxStep key) x) := by
  intro xs
  induction xs with
  | nil =>
    intro x
    exact ⟨[], [], rfl, by simp, by simp⟩
  | cons y ys ih =>
    intro x
    rw [List.foldl_cons]
    by_cases h : key x < key y
    · rw [show pyMaxStep key x y = y from by simp [pyMaxStep, h]]
      obtain ⟨l1, l2, heq, hub, hstrict⟩ := ih y
      refine ⟨x :: l1, l2, by rw [List.cons_append, ← heq], ?_, ?_⟩
      · intro z hz
        rcases List.mem_cons.mp hz with rfl | hz2
        · exact le_of_lt (lt_of_lt_of_le h (hub y (List.mem_cons_self y ys)))
        · exact hub z hz2
      · intro z hz
        rcases List.mem_cons.mp hz with rfl | hz2
        · exact lt_of_lt_of_le h (hub y (List.mem_cons_self y ys))
        · exact hstrict z hz2
    · rw [show pyMaxStep key x y = x from by simp [pyMaxStep, h]]
      obtain ⟨l1, l2, heq, hub, hstrict⟩ := ih x
      have hyx : key y ≤ key x := le_of_not_lt h
      have hxb : key x ≤ key (ys.foldl (pyMaxStep key) x) :=
        hub x (List.mem_cons_self x ys)
      cases l1 with
      | nil =>
        simp only [List.nil_append] at heq
        injection heq with hb hl2
        refine ⟨[], y :: ys, ?_, ?_, by simp⟩
        · simp [← hb]
        · intro z hz
          rcases List.mem_cons.mp hz with rfl | hz2
          · exact hxb
          · rcases List.mem_cons.mp hz2 with rfl | hz3
            · rw [← hb]
              exact hyx
            · exact hub z (List.mem_cons_of_mem x hz3)
      | cons a l1t =>
        rw [List.cons_append] at heq
        injection heq with hax htail
        subst hax
        refine ⟨x :: y :: l1t, l2, ?_, ?_, ?_⟩
        · rw [List.cons_append, List.cons_append, ← htail]
        · intro z hz
          rcases List.mem_cons.mp hz with rfl | hz2
          · exact hxb
          · rcases List.mem_cons.mp hz2 with rfl | hz3
            · exact le_trans hyx hxb
            · exact hub z (List.mem_cons_of_mem x hz3)
        · intro z hz
          have hxa : key x < key (ys.foldl (pyMaxStep key) x) :=
            hstrict x (List.mem_cons_self x l1t)
          rcases List.mem_cons.mp hz with rfl | hz2
          · exact hxa
          · rcases List.mem_cons.mp hz2 with rfl | hz3
            · exact lt_of_le_of_lt hyx hxa
            · exact hstrict z (List.mem_cons_of_mem x hz3)

theorem pyMaxByRat_eq_some {α : Type} (key : α → Rat) (l : List α) (b : α)
    (h : pyMaxByRat key l = some b) :
    ∃ l1 l2, l = l1 ++ b :: l2 ∧ (∀ y ∈ l, key y ≤ key b) ∧ ∀ y ∈ l1, key y < key b := by
  match l, h with
  | x :: xs, h =>
    have hb : xs.foldl (pyMaxStep key) x = b := by
      simpa [pyMaxByRat] using h
    obtain ⟨l1, l2, heq, hub, hstrict⟩ := foldl_pyMaxStep_spec key xs x
    rw [hb] at heq hub hstrict
    exact ⟨l1, l2, heq, hub, hstrict⟩

/-!
Claims.
-/

/-- C1 counterexample: on the utterance "gym at 5" with intent
CalendarCreate, no time field is extracted at all (neither time pattern
matches a bare hour without a colon or an am/pm marker), so the extraction
does not yield time "17:00" as the claim states. -/
theorem C1_counterexample :
    ¬ dictLookup (extract_fields env0 "gym at 5" Intent.CALENDAR_CREATE) "time" =
        some "17:00" := by
  decide

/-- C1 (amended): for the utterance "gym at 5" with intent CalendarCreate,
extractFields yields exactly title "gym" (no time field is extracted and the
date remains unset), and validateAndExtract returns is_valid = true with
those fields, leaving the store unchanged. -/
theorem C1_gym_at_5_amended (env : Env) (st : StateManager) (now : Nat) :
    extract_fields env "gym at 5" Intent.CALENDAR_CREATE = [("title", "gym")] ∧
    (validate_and_extract env st "gym at 5" Intent.CALENDAR_CREATE now).1 =
      ⟨true, [], [("title", "gym")], none⟩ ∧
    (validate_and_extract env st "gym at 5" Intent.CALENDAR_CREATE now).2 = st := by
  have hex : extract_fields env "gym at 5" Intent.CALENDAR_CREATE = [("title", "gym")] := rfl
  have hpb : postBackfill env st "gym at 5" Intent.CALENDAR_CREATE = ([("title", "gym")], []) := by
    simp only [postBackfill]
    rw [hex]
    rw [show missingOf (get_required_fields Intent.CALENDAR_CREATE) [("title", "gym")] = []
      from rfl]
    simp
  have hval : validate_and_extract env st "gym at 5" Intent.CALENDAR_CREATE now =
      (⟨true, [], [("title", "gym")], none⟩, st) := by
    simp only [validate_and_extract]
    rw [hpb]
    rfl
  exact ⟨hex, by rw [hval], by rw [hval]⟩

/-- C2: the extractor normalises 12-hour clock times to zero-padded 24-hour
HH:MM: "3pm" becomes "15:00", "12am" becomes "00:00", "12pm" stays "12:00",
and "9:30am" becomes "09:30". -/
theorem C2_time_normalization (env : Env) :
    dictLookup (extract_fields env "3pm" Intent.CALENDAR_CREATE) "time" = some "15:00" ∧
    dictLookup (extract_fields env "12am" Intent.CALENDAR_CREATE) "time" = some "00:00" ∧
    dictLookup (extract_fields env "12pm" Intent.CALENDAR_CREATE) "time" = some "12:00" ∧
    dictLookup (extract_fields env "9:30am" Intent.CALENDAR_CREATE) "time" = some "09:30" :=
  ⟨rfl, rfl, rfl, rfl⟩

/-- C7: when no required slot is missing after extraction and backfill
(steps 1-3 of `validate_and_extract`), the call returns is_valid = true and
leaves the store — in particular its task map — completely unchanged. -/
theorem C7_valid_no_mutation (env : Env) (st : StateManager) (input : String)
    (intent : Intent) (now : Nat)
    (h : (postBackfill env st input intent).2 = []) :
    (validate_and_extract env st input intent now).1.is_valid = true ∧
    (validate_and_extract env st input intent now).2 = st := by
  have hval : validate_and_extract env st input intent now =
      (⟨true, [], (postBackfill env st input intent).1, none⟩, st) := by
    simp only [validate_and_extract]
    rw [h]
    simp
  exact ⟨by rw [hval], by rw [hval]⟩

/-- C7 witness: "what's the weather" with intent Weather (no required slots)
is immediately valid on the empty store and creates no task. -/
theorem C7_witness :
    (validate_and_extract env0 st0 ("what" ++ aposS ++ "s the weather")
        Intent.WEATHER 0).1.is_valid = true ∧
    (validate_and_extract env0 st0 ("what" ++ aposS ++ "s the weather")
        Intent.WEATHER 0).2 = st0 :=
  C7_valid_no_mutation env0 st0 ("what" ++ aposS ++ "s the weather") Intent.WEATHER 0 (by decide)

/-- C8: update_task and complete_task on a task id that is not in the store
return false instead of raising, and the store (both its task map and its
session context) is unchanged. -/
theorem C8_unknown_task_id (st : StateManager) (tid : String) (status : Option String)
    (data : List (String × String)) (result : Option String) (now : Nat)
    (h : dictLookup st.active_tasks tid = none) :
    st.update_task tid status data now = (false, st) ∧
    st.complete_task tid result now = (false, st) := by
  constructor <;> simp [StateManager.update_task, StateManager.complete_task, h]

/-- C8 witness: on the empty store both operations fail with `false` and
leave the store as it was. -/
theorem C8_witness :
    st0.update_task "missing" none [] 0 = (false, st0) ∧
    st0.complete_task "missing" none 0 = (false, st0) :=
  C8_unknown_task_id st0 "missing" none [] none 0 rfl

/-- C9: classification is deterministic — two calls of `classify_intent` on
the same text return the identical (intent, score) pair.  In the embedding
`classify_intent` is a pure function of the text alone: like the source,
which reads only the constant pattern table built in `__init__`, it takes no
store or session state, so the result cannot depend on either. -/
theorem C9_classify_deterministic (t : String) :
    classify_intent t = classify_intent t := rfl

/-- C4: starting from a store with no active email_send task,
validateAndExtract("send email to john@example.com", EmailSend) extracts
to = "john@example.com", reports missing_fields = ["subject"] with
is_valid = false, and afterwards a task of type "email_send" holding the
extracted data exists and is returned by getActiveTasks("email_send"). -/
theorem C4_email_send_flow (env : Env) (st : StateManager) (now : Nat)
    (h : st.get_active_tasks (some "email_send") = []) :
    (validate_and_extract env st "send email to john@example.com" Intent.EMAIL_SEND now).1 =
      ⟨false, ["subject"], [("to", "john@example.com")],
        some "What should the subject line be? I have: to: john@example.com"⟩ ∧
    ∃ tid task,
      (tid, task) ∈ (validate_and_extract env st "send email to john@example.com"
          Intent.EMAIL_SEND now).2.get_active_tasks (some "email_send") ∧
      task.task_type = "email_send" ∧ task.data = [("to", "john@example.com")] := by
  have hex : extract_fields env "send email to john@example.com" Intent.EMAIL_SEND =
      [("to", "john@example.com")] := rfl
  have hpb : postBackfill env st "send email to john@example.com" Intent.EMAIL_SEND =
      ([("to", "john@example.com")], ["subject"]) := by
    simp only [postBackfill]
    rw [hex]
    rw [show missingOf (get_required_fields Intent.EMAIL_SEND) [("to", "john@example.com")] =
      ["subject"] from rfl]
    simp only [Intent.value]
    rw [h]
    simp
  have hval : validate_and_extract env st "send email to john@example.com"
      Intent.EMAIL_SEND now =
      (⟨false, ["subject"], [("to", "john@example.com")],
        some "What should the subject line be? I have: to: john@example.com"⟩,
       (st.create_task ("email_send_" ++ natToStr st.active_tasks.length) "email_send"
          [("to", "john@example.com")] now).1) := by
    simp only [validate_and_extract]
    rw [hpb]
    simp only [Intent.value]
    rw [h]
    rfl
  refine ⟨by rw [hval], "email_send_" ++ natToStr st.active_tasks.length,
    ⟨"email_send", "pending", [("to", "john@example.com")], now, now⟩, ?_, rfl, rfl⟩
  rw [hval]
  simp only [StateManager.create_task, StateManager.get_active_tasks, List.mem_filter]
  refine ⟨mem_dictSet_self _ _ _, by simp⟩

/-- C4 witness: the scenario run on the empty store. -/
theorem C4_witness :
    (validate_and_extract env0 st0 "send email to john@example.com" Intent.EMAIL_SEND 0).1 =
      ⟨false, ["subject"], [("to", "john@example.com")],
        some "What should the subject line be? I have: to: john@example.com"⟩ ∧
    ∃ tid task,
      (tid, task) ∈ (validate_and_extract env0 st0 "send email to john@example.com"
          Intent.EMAIL_SEND 0).2.get_active_tasks (some "email_send") ∧
      task.task_type = "email_send" ∧ task.data = [("to", "john@example.com")] :=
  C4_email_send_flow env0 st0 0 rfl

/-- C6: title extraction for CalendarCreate tries its rules in a fixed order
and the first matching rule wins: whenever the known-activity-noun pattern
matches, the title is that pattern's whole match — regardless of whether the
later rules would also match.  In particular, on "schedule gym session at 5"
both the activity-noun rule and the generic verb-phrase rule match (the
latter would capture "gym session"), and the extracted title is "gym". -/
theorem C6_title_first_match :
    (∀ (env : Env) (t : String) (m : MatchRes),
      reSearch actPat1 (lowerStr t.data) = some m →
      dictLookup (extract_fields env t Intent.CALENDAR_CREATE) "title" =
        some (String.mk (MatchRes.group0 (lowerStr t.data) m))) ∧
    (∀ env : Env,
      (reSearch actPat1 (lowerStr "schedule gym session at 5".data)).isSome = true ∧
      (∃ m3, reSearch actPat3 (lowerStr "schedule gym session at 5".data) = some m3 ∧
        (m3.group 2).map (fun g => String.mk (strip g)) = some "gym session") ∧
      dictLookup (extract_fields env "schedule gym session at 5" Intent.CALENDAR_CREATE)
        "title" = some "gym") := by
  constructor
  · intro env t m h
    have h1 : ("time" : String) ≠ "title" := by decide
    have h2 : ("date" : String) ≠ "title" := by decide
    simp only [extract_fields, h]
    repeat' split
    all_goals
      simp only [dictLookup_dictSet_self, dictLookup_dictSet_ne _ _ _ _ h1,
        dictLookup_dictSet_ne _ _ _ _ h2]
  · intro env
    refine ⟨by decide, ⟨⟨0, 23, [(1, "schedule".data), (2, "gym session".data)]⟩,
      by decide, by decide⟩, ?_⟩
    rfl

/-- C6 witness: the general first-match rule applied to the concrete
utterance "schedule gym session at 5", where the activity-noun pattern
matches "gym" at positions 9-12. -/
theorem C6_witness :
    dictLookup (extract_fields env0 "schedule gym session at 5" Intent.CALENDAR_CREATE)
      "title" =
      some (String.mk (MatchRes.group0 (lowerStr "schedule gym session at 5".data)
        ⟨9, 12, [(1, "gym".data)]⟩)) :=
  C6_title_first_match.1 env0 "schedule gym session at 5" ⟨9, 12, [(1, "gym".data)]⟩ (by decide)

/-- Helper: one `complete_task_with_response` call on a store whose recency
selection picks task `tid` (holding record `T`, with a truthy id and a valid
intent type) reaches the normal processing path: it merges the newly
extracted fields over `T.data`, recomputes the missing fields from the merge,
answers invalid-with-clarification or valid accordingly, and stores the
merged data back under `tid`. -/
theorem ctwr_step (env : Env) (st : StateManager) (resp : String) (now : Nat)
    (tid : String) (T : TaskState) (intent : Intent)
    (hsel : selectRecent st = some (tid, T))
    (hne : tid ≠ "")
    (hT : dictLookup st.active_tasks tid = some T)
    (hI : Intent.fromString T.task_type = some intent) :
    ∃ vr st', complete_task_with_response env st resp now = .ok (some vr, st') ∧
      vr.extracted_fields = dataUpdate T.data (extract_fields env resp intent) ∧
      vr.missing_fields = missingOf (get_required_fields intent)
        (dataUpdate T.data (extract_fields env resp intent)) ∧
      (vr.missing_fields ≠ [] → vr.is_valid = false ∧ (vr.clarification).isSome = true) ∧
      (vr.missing_fields = [] → vr.is_valid = true) ∧
      ∃ T', dictLookup st'.active_tasks tid = some T' ∧
        T'.task_type = T.task_type ∧
        T'.data = dataUpdate T.data (extract_fields env resp intent) := by
  have hupd : st.update_task tid none (extract_fields env resp intent) now =
      (true, StateManager.mk
        (dictSet st.active_tasks tid
          (TaskState.mk T.task_type T.status
            (dataUpdate T.data (extract_fields env resp intent)) T.created_at now))
        st.session_context) := by
    simp only [StateManager.update_task, hT, TaskState.update]
  simp only [complete_task_with_response, hsel, hI, if_neg hne, hupd]
  cases hms : missingOf (get_required_fields intent)
      (dataUpdate T.data (extract_fields env resp intent)) with
  | nil =>
    have hlook : dictLookup (dictSet st.active_tasks tid
        (TaskState.mk T.task_type T.status
          (dataUpdate T.data (extract_fields env resp intent)) T.created_at now)) tid =
        some (TaskState.mk T.task_type T.status
          (dataUpdate T.data (extract_fields env resp intent)) T.created_at now) :=
      dictLookup_dictSet_self _ _ _
    refine ⟨⟨true, [], dataUpdate T.data (extract_fields env resp intent), none⟩, _,
      rfl, rfl, rfl, fun hcon => absurd rfl hcon, fun _ => rfl, ?_⟩
    refine ⟨TaskState.mk T.task_type "completed"
      (dataUpdate T.data (extract_fields env resp intent)) T.created_at now, ?_, rfl, rfl⟩
    simp only [StateManager.complete_task, hlook]
    exact dictLookup_dictSet_self _ _ _
  | cons a as =>
    refine ⟨⟨false, a :: as, dataUpdate T.data (extract_fields env resp intent),
      some (generate_clarification intent (a :: as)
        (dataUpdate T.data (extract_fields env resp intent)))⟩, _,
      rfl, rfl, rfl, fun _ => ⟨rfl, rfl⟩, fun hcon => absurd hcon (List.cons_ne_nil a as), ?_⟩
    refine ⟨TaskState.mk T.task_type T.status
      (dataUpdate T.data (extract_fields env resp intent)) T.created_at now, ?_, rfl, rfl⟩
    exact dictLookup_dictSet_self _ _ _

/-- C5: a task's data mapping only grows or overwrites existing keys under
`complete_task_with_response`: over any sequence of calls that all select the
same task, a previously-set key stays present with its old value unless a
later turn extracts a new value for that key, in which case the last
extracted value wins. -/
theorem C5_merge_monotone (env : Env) (tid : String) (rs : List (String × Nat)) :
    ∀ (st : StateManager) (T : TaskState) (intent : Intent) (v k : String),
      dictLookup st.active_tasks tid = some T →
      Intent.fromString T.task_type = some intent →
      dictLookup T.data k = some v →
      selectsAll env tid rs st = true →
      ∃ st' T', runCTWR env rs st = some st' ∧
        dictLookup st'.active_tasks tid = some T' ∧
        T'.task_type = T.task_type ∧
        dictLookup T'.data k = some (lastExtracted env intent k v (rs.map Prod.fst)) := by
  induction rs with
  | nil =>
    intro st T intent v k hT hI hk _
    exact ⟨st, T, rfl, hT, rfl, by simpa [lastExtracted] using hk⟩
  | cons a rest ih =>
    obtain ⟨resp, now⟩ := a
    intro st T intent v k hT hI hk hsel
    rw [selectsAll] at hsel
    cases hrec : selectRecent st with
    | none =>
      rw [hrec] at hsel
      exact Bool.noConfusion hsel
    | some p =>
      obtain ⟨tid', recent⟩ := p
      simp only [hrec] at hsel
      by_cases hc : tid' = tid ∧ tid ≠ "" ∧ dictLookup st.active_tasks tid = some recent
      · rw [if_pos hc] at hsel
        obtain ⟨hid, hne, hlook⟩ := hc
        subst hid
        rw [hlook] at hT
        injection hT with hTr
        subst hTr
        obtain ⟨vr, st', hcall, hext, hmiss, hinv, hval, T', hT', htype, hdata⟩ :=
          ctwr_step env st resp now tid' recent intent hrec hne hlook hI
        rw [hcall] at hsel
        have hI' : Intent.fromString T'.task_type = some intent := by
          rw [htype]
          exact hI
        have hk' : dictLookup T'.data k =
            some ((dictLookup (extract_fields env resp intent) k).getD v) := by
          rw [hdata]
          cases hnf : dictLookup (extract_fields env resp intent) k with
          | none =>
            rw [dictLookup_dataUpdate_none _ _ _ hnf, hk]
            rfl
          | some w =>
            rw [dictLookup_dataUpdate_some _ _ _ _
              (extract_fields_keys_nodup env resp intent) hnf]
            rfl
        obtain ⟨st'', T'', hrun, hT'', htype', hlast⟩ :=
          ih st' T' intent ((dictLookup (extract_fields env resp intent) k).getD v) k
            hT' hI' hk' hsel
        refine ⟨st'', T'', ?_, hT'', by rw [htype', htype], ?_⟩
        · rw [runCTWR, hcall]
          exact hrun
        · exact hlast
      · rw [if_neg hc] at hsel
        exact Bool.noConfusion hsel

/-- C5 witness: one follow-up turn "meeting at 3pm" against the pending
calendar task: the previously-set key "title" stays present, overwritten by
the newly extracted value (the last extracted value, "meeting", wins). -/
theorem C5_witness :
    ∃ st' T', runCTWR env0 [("meeting at 3pm", 5)] stCal = some st' ∧
      dictLookup st'.active_tasks "calendar_create_0" = some T' ∧
      T'.task_type = "calendar_create" ∧
      dictLookup T'.data "title" =
        some (lastExtracted env0 Intent.CALENDAR_CREATE "title" "gym" ["meeting at 3pm"]) :=
  C5_merge_monotone env0 "calendar_create_0" [("meeting at 3pm", 5)] stCal
    ⟨"calendar_create", "pending", [("title", "gym")], 0, 0⟩ Intent.CALENDAR_CREATE "gym" "title"
    rfl rfl rfl (by decide)


/-- C10: a required slot whose value is present but empty ("" is the only
falsy string) is treated exactly like an absent slot.  First, the
missing-field test shared by both orchestrator entry points counts a slot as
missing exactly when it is absent or empty.  Second, whenever
`validate_and_extract` ends up with a non-empty missing list it answers
invalid with a clarification.  Third, a `complete_task_with_response` turn
whose merged fields leave a required slot absent-or-empty counts that slot
in missing_fields and answers invalid with a clarification. -/
theorem C10_falsy_counts_missing :
    (∀ (required : List String) (d : List (String × String)) (f : String),
      f ∈ required →
      (f ∈ missingOf required d ↔ dictLookup d f = none ∨ dictLookup d f = some "")) ∧
    (∀ (env : Env) (st : StateManager) (input : String) (intent : Intent) (now : Nat),
      (postBackfill env st input intent).2 ≠ [] →
      (validate_and_extract env st input intent now).1.is_valid = false ∧
      (validate_and_extract env st input intent now).1.missing_fields =
        (postBackfill env st input intent).2 ∧
      ((validate_and_extract env st input intent now).1.clarification).isSome = true) ∧
    (∀ (env : Env) (st : StateManager) (resp : String) (now : Nat)
        (tid : String) (T : TaskState) (intent : Intent) (f : String),
      selectRecent st = some (tid, T) → tid ≠ "" →
      dictLookup st.active_tasks tid = some T →
      Intent.fromString T.task_type = some intent →
      f ∈ get_required_fields intent →
      (dictLookup (dataUpdate T.data (extract_fields env resp intent)) f = none ∨
       dictLookup (dataUpdate T.data (extract_fields env resp intent)) f = some "") →
      ∃ vr st', complete_task_with_response env st resp now = .ok (some vr, st') ∧
        f ∈ vr.missing_fields ∧ vr.is_valid = false ∧ (vr.clarification).isSome = true) := by
  have hmem : ∀ (required : List String) (d : List (String × String)) (f : String),
      f ∈ required →
      (f ∈ missingOf required d ↔ dictLookup d f = none ∨ dictLookup d f = some "") := by
    intro required d f hf
    simp only [missingOf, List.mem_filter, hf, true_and]
    cases hd : dictLookup d f with
    | none => simp
    | some v => simp
  refine ⟨hmem, ?_, ?_⟩
  · intro env st input intent now h
    cases hm : (postBackfill env st input intent).2 with
    | nil => exact absurd hm h
    | cons a as =>
      have hval : validate_and_extract env st input intent now =
          (⟨false, (postBackfill env st input intent).2, (postBackfill env st input intent).1,
            some (generate_clarification intent (postBackfill env st input intent).2
              (postBackfill env st input intent).1)⟩,
           match st.get_active_tasks (some intent.value) with
           | [] => (st.create_task (intent.value ++ "_" ++ natToStr st.active_tasks.length)
               intent.value (postBackfill env st input intent).1 now).1
           | p :: _ => (st.update_task p.1 none (postBackfill env st input intent).1 now).2) := by
        simp only [validate_and_extract]
        rw [hm]
        simp
      rw [hval]
      exact ⟨rfl, hm, rfl⟩
  · intro env st resp now tid T intent f hsel hne hT hI hreq hfalsy
    obtain ⟨vr, st', hcall, hext, hmiss, hinv, hvalid, _⟩ :=
      ctwr_step env st resp now tid T intent hsel hne hT hI
    have hfm : f ∈ vr.missing_fields := by
      rw [hmiss]
      exact (hmem (get_required_fields intent)
        (dataUpdate T.data (extract_fields env resp intent)) f hreq).mpr hfalsy
    have hcons := hinv (List.ne_nil_of_mem hfm)
    exact ⟨vr, st', hcall, hfm, hcons.1, hcons.2⟩

/-- C10 witness: an empty-string value for required slot "subject" counts as
missing exactly like an absent one; the email scenario with a missing
subject answers invalid with a clarification; and a follow-up turn that
leaves the required title slot unset keeps it in missing_fields with an
invalid answer. -/
theorem C10_witness :
    ("subject" ∈ missingOf ["to", "subject"] [("to", "x"), ("subject", "")] ↔
      dictLookup [("to", "x"), ("subject", "")] "subject" = none ∨
      dictLookup [("to", "x"), ("subject", "")] "subject" = some "") ∧
    ((validate_and_extract env0 st0 "send email to john@example.com"
        Intent.EMAIL_SEND 0).1.is_valid = false ∧
     (validate_and_extract env0 st0 "send email to john@example.com"
        Intent.EMAIL_SEND 0).1.missing_fields =
       (postBackfill env0 st0 "send email to john@example.com" Intent.EMAIL_SEND).2 ∧
     ((validate_and_extract env0 st0 "send email to john@example.com"
        Intent.EMAIL_SEND 0).1.clarification).isSome = true) ∧
    (∃ vr st', complete_task_with_response env0 stCalEmpty "hello" 7 = .ok (some vr, st') ∧
      "title" ∈ vr.missing_fields ∧ vr.is_valid = false ∧
      (vr.clarification).isSome = true) :=
  ⟨C10_falsy_counts_missing.1 ["to", "subject"] [("to", "x"), ("subject", "")] "subject"
     (by decide),
   C10_falsy_counts_missing.2.1 env0 st0 "send email to john@example.com" Intent.EMAIL_SEND 0
     (by decide),
   C10_falsy_counts_missing.2.2 env0 stCalEmpty "hello" 7 "calendar_create_0"
     ⟨"calendar_create", "pending", [], 0, 0⟩ Intent.CALENDAR_CREATE "title"
     (by decide) (by decide) (by decide) (by decide) (by decide) (by decide)⟩

/-- Every intent in the classifier's catalog has at least one pattern. -/
theorem patternsCatalog_pos : ∀ ip ∈ patternsCatalog, 0 < ip.2.length := by
  intro ip h
  simp only [patternsCatalog, List.mem_cons, List.not_mem_nil, or_false] at h
  rcases h with rfl | rfl | rfl | rfl | rfl | rfl | rfl | rfl | rfl | rfl <;> simp

/-- `mkRat` on naturals is the rational division the source's float division
denotes. -/
theorem mkRat_nat_eq_div (n d : Nat) : mkRat n d = (n : Rat) / (d : Rat) := by
  rw [Rat.mkRat_eq_div]
  norm_num

/-- A ratio of positive naturals is positive. -/
theorem mkRat_pos_of_pos {n d : Nat} (hn : 0 < n) (hd : 0 < d) : 0 < mkRat n d := by
  rw [mkRat_nat_eq_div]
  apply div_pos
  · exact_mod_cast hn
  · exact_mod_cast hd

/-- The match count is zero exactly when no pattern of the list matches. -/
theorem matchCount_eq_zero_iff (ps : List Re) (tl : List Char) :
    matchCount ps tl = 0 ↔ ∀ p ∈ ps, reSearch p tl = none := by
  rw [matchCount, List.countP_eq_zero]
  constructor
  · intro h p hp
    have := h p hp
    simpa [Option.not_isSome_iff_eq_none] using this
  · intro h p hp
    simp [h p hp]

/-- Unfolding of a successful score entry. -/
theorem scoreEntry_eq_some {tl : List Char} {ip : Intent × List Re} {b : Intent × Rat}
    (h : scoreEntry tl ip = some b) :
    0 < matchCount ip.2 tl ∧ b = (ip.1, mkRat (matchCount ip.2 tl) ip.2.length) := by
  by_cases hc : 0 < matchCount ip.2 tl
  · rw [scoreEntry, if_pos hc] at h
    exact ⟨hc, (Option.some.inj h).symm⟩
  · rw [scoreEntry, if_neg hc] at h
    exact Option.noConfusion h

/-- Every score the classifier records is positive. -/
theorem scores_mem_pos (tl : List Char) (b : Intent × Rat)
    (hb : b ∈ patternsCatalog.filterMap (scoreEntry tl)) : 0 < b.2 := by
  obtain ⟨ip, hip, hent⟩ := List.mem_filterMap.mp hb
  obtain ⟨hpos, rfl⟩ := scoreEntry_eq_some hent
  exact mkRat_pos_of_pos hpos (patternsCatalog_pos ip hip)

/-- `classify_intent` unfolded through `scoreEntry`. -/
theorem classify_intent_eq (text : String) :
    classify_intent text =
      match pyMaxByRat Prod.snd (patternsCatalog.filterMap (scoreEntry (lowerStr text.data))) with
      | none => (Intent.GENERAL, 0)
      | some best => best := rfl

/-- C3: for every input text, classify returns the General intent with
confidence exactly 0 if and only if no pattern of any intent matches the
lower-cased text; otherwise the returned intent occupies a position in the
fixed catalog whose confidence (matching patterns over total patterns)
bounds every intent's confidence, with every earlier catalog entry strictly
below it (first maximal intent wins ties); and the confidence always lies in
[0, 1]. -/
theorem C3_classify_spec (text : String) :
    (classify_intent text = (Intent.GENERAL, 0) ↔
      ∀ ip ∈ patternsCatalog, ∀ p ∈ ip.2, reSearch p (lowerStr text.data) = none) ∧
    ((∃ ip ∈ patternsCatalog, ∃ p ∈ ip.2, (reSearch p (lowerStr text.data)).isSome = true) →
      ∃ l1 ps l2, patternsCatalog = l1 ++ ((classify_intent text).1, ps) :: l2 ∧
        (classify_intent text).2 =
          (matchCount ps (lowerStr text.data) : Rat) / (ps.length : Rat) ∧
        (∀ jq ∈ patternsCatalog,
          (matchCount jq.2 (lowerStr text.data) : Rat) / (jq.2.length : Rat) ≤
            (classify_intent text).2) ∧
        ∀ jq ∈ l1,
          (matchCount jq.2 (lowerStr text.data) : Rat) / (jq.2.length : Rat) <
            (classify_intent text).2) ∧
    0 ≤ (classify_intent text).2 ∧ (classify_intent text).2 ≤ 1 := by
  cases hS : patternsCatalog.filterMap (scoreEntry (lowerStr text.data)) with
  | nil =>
    have hCC : classify_intent text = (Intent.GENERAL, 0) := by
      rw [classify_intent_eq text, hS]
      rfl
    have hall : ∀ ip ∈ patternsCatalog, ∀ p ∈ ip.2,
        reSearch p (lowerStr text.data) = none := by
      intro ip hip p hp
      have hnone : scoreEntry (lowerStr text.data) ip = none :=
        (List.filterMap_eq_nil_iff.mp hS) ip hip
      have hz : matchCount ip.2 (lowerStr text.data) = 0 := by
        by_contra hc
        rw [scoreEntry, if_pos (Nat.pos_of_ne_zero hc)] at hnone
        exact Option.noConfusion hnone
      exact (matchCount_eq_zero_iff ip.2 (lowerStr text.data)).mp hz p hp
    refine ⟨⟨fun _ => hall, fun _ => hCC⟩, ?_, ?_, ?_⟩
    · intro hex
      obtain ⟨ip, hip, p, hp, hpsome⟩ := hex
      rw [hall ip hip p hp] at hpsome
      exact Bool.noConfusion hpsome
    · rw [hCC]
    · rw [hCC]
      norm_num
  | cons x xs =>
    have hCC : classify_intent text = xs.foldl (pyMaxStep Prod.snd) x := by
      rw [classify_intent_eq text, hS]
      rfl
    obtain ⟨s1, s2, hsplit, hub, hstrict⟩ :=
      pyMaxByRat_eq_some Prod.snd (x :: xs) (xs.foldl (pyMaxStep Prod.snd) x) rfl
    have hbmem : xs.foldl (pyMaxStep Prod.snd) x ∈
        patternsCatalog.filterMap (scoreEntry (lowerStr text.data)) := by
      rw [hS, hsplit]
      exact List.mem_append_right _ (List.mem_cons_self _ _)
    have hbpos : 0 < (xs.foldl (pyMaxStep Prod.snd) x).2 := scores_mem_pos _ _ hbmem
    have hSsplit : patternsCatalog.filterMap (scoreEntry (lowerStr text.data)) =
        s1 ++ (xs.foldl (pyMaxStep Prod.snd) x) :: s2 := by
      rw [hS]
      exact hsplit
    obtain ⟨c1, c2, hcat, hfm1, hfm2⟩ := List.filterMap_eq_append_iff.mp hSsplit
    obtain ⟨c2a, x0, c2b, hc2, hc2none, hx0, hrest⟩ := List.filterMap_eq_cons_iff.mp hfm2
    obtain ⟨hx0pos, hbx0⟩ := scoreEntry_eq_some hx0
    have hx0mem : x0 ∈ patternsCatalog := by
      rw [hcat, hc2]
      exact List.mem_append_right _ (List.mem_append_right _ (List.mem_cons_self _ _))
    have hub_cat : ∀ jq ∈ patternsCatalog,
        (matchCount jq.2 (lowerStr text.data) : Rat) / (jq.2.length : Rat) ≤
          (xs.foldl (pyMaxStep Prod.snd) x).2 := by
      intro jq hjq
      by_cases hz : 0 < matchCount jq.2 (lowerStr text.data)
      · have hmemS : (jq.1, mkRat (matchCount jq.2 (lowerStr text.data)) jq.2.length) ∈
            patternsCatalog.filterMap (scoreEntry (lowerStr text.data)) :=
          List.mem_filterMap.mpr ⟨jq, hjq, by rw [scoreEntry, if_pos hz]⟩
        rw [hS] at hmemS
        have := hub _ hmemS
        rw [← mkRat_nat_eq_div]
        simpa using this
      · have h0 : matchCount jq.2 (lowerStr text.data) = 0 := Nat.eq_zero_of_not_pos hz
        rw [h0]
        simpa using le_of_lt hbpos
    have hstrict_cat : ∀ jq ∈ c1 ++ c2a,
        (matchCount jq.2 (lowerStr text.data) : Rat) / (jq.2.length : Rat) <
          (xs.foldl (pyMaxStep Prod.snd) x).2 := by
      intro jq hjq
      by_cases hz : 0 < matchCount jq.2 (lowerStr text.data)
      · rcases List.mem_append.mp hjq with h1 | h2
        · have hmem1 : (jq.1, mkRat (matchCount jq.2 (lowerStr text.data)) jq.2.length) ∈ s1 := by
            rw [← hfm1]
            exact List.mem_filterMap.mpr ⟨jq, h1, by rw [scoreEntry, if_pos hz]⟩
          have := hstrict _ hmem1
          rw [← mkRat_nat_eq_div]
          simpa using this
        · have hn := hc2none jq h2
          rw [scoreEntry, if_pos hz] at hn
          exact Option.noConfusion hn
      · have h0 : matchCount jq.2 (lowerStr text.data) = 0 := Nat.eq_zero_of_not_pos hz
        rw [h0]
        simpa using hbpos
    refine ⟨⟨?_, ?_⟩, ?_, ?_, ?_⟩
    · intro heq
      rw [hCC] at heq
      rw [heq] at hbpos
      exact absurd hbpos (lt_irrefl 0)
    · intro hall
      have : patternsCatalog.filterMap (scoreEntry (lowerStr text.data)) = [] := by
        apply List.filterMap_eq_nil_iff.mpr
        intro ip hip
        rw [scoreEntry, if_neg]
        rw [Nat.pos_iff_ne_zero, ne_eq, not_not]
        exact (matchCount_eq_zero_iff ip.2 (lowerStr text.data)).mpr (hall ip hip)
      rw [hS] at this
      exact List.noConfusion this
    · intro _
      refine ⟨c1 ++ c2a, x0.2, c2b, ?_, ?_, ?_, ?_⟩
      · rw [hcat, hc2, ← List.append_assoc]
        have hfst : (classify_intent text).1 = x0.1 := by
          rw [hCC, hbx0]
        rw [hfst]
      · rw [hCC, hbx0, ← mkRat_nat_eq_div]
      · intro jq hjq
        rw [hCC]
        exact hub_cat jq hjq
      · intro jq hjq
        rw [hCC]
        exact hstrict_cat jq hjq
    · rw [hCC]
      exact le_of_lt hbpos
    · rw [hCC, hbx0]
      rw [mkRat_nat_eq_div]
      rw [div_le_one (by exact_mod_cast patternsCatalog_pos x0 hx0mem)]
      exact_mod_cast List.countP_le_length _

/-- C3 witness: on the text "weather" at least one pattern (the first
Weather pattern) matches, so the classifier's result occupies a catalog
position whose confidence is maximal, with all earlier entries strictly
below it. -/
theorem C3_witness :
    ∃ l1 ps l2, patternsCatalog = l1 ++ ((classify_intent "weather").1, ps) :: l2 ∧
      (classify_intent "weather").2 =
        (matchCount ps (lowerStr "weather".data) : Rat) / (ps.length : Rat) ∧
      (∀ jq ∈ patternsCatalog,
        (matchCount jq.2 (lowerStr "weather".data) : Rat) / (jq.2.length : Rat) ≤
          (classify_intent "weather").2) ∧
      ∀ jq ∈ l1,
        (matchCount jq.2 (lowerStr "weather".data) : Rat) / (jq.2.length : Rat) <
          (classify_intent "weather").2 :=
  (C3_classify_spec "weather").2.1
    ⟨(Intent.WEATHER, [wPat1, wPat2, wPat3]), by simp [patternsCatalog], wPat1, by simp,
      by decide⟩
